import Mathlib

/-!
Shallow embedding of `viewer.py` (pyopengl_sample): a single-class OpenGL
viewer driven by GLFW.  Scalars are abstracted over a field `α` equipped with
symbolic `cos`, `sin` and `pi` (the source computes with Python floats; the
algebraic identities the program relies on hold for the ideal operations).
Matrices are 4×4 Mathlib matrices; `glm` helpers are translated from the GLM
sources the program calls (`glm.translate`, `glm.rotate`,
`glm.perspectiveFovLH_NO`, `glm.radians`), with GLM's column-major `m[col][row]`
layout rewritten in the usual row-column convention.

Every GL / GLFW / OpenCV call the program performs is emitted as an event into
a trace, and Python-level control flow (early `return`, `sys.exit()`, an
uncaught exception) is an explicit outcome, so ordering and failure-handling
claims become statements about the trace and the outcome.
-/

/-- Symbolic scalar operations: the transcendental functions the program uses
through `glm` (`cos`, `sin`) and the constant `pi` used by `glm.radians`. -/
structure ScalarOps (α : Type) where
  cos : α → α
  sin : α → α
  pi : α

/-- A 3-component vector, as `glm.vec3`. -/
structure Vec3 (α : Type) where
  x : α
  y : α
  z : α
deriving DecidableEq

/-- Componentwise negation of a `glm.vec3` (the source writes `-trans`). -/
def Vec3.neg {α : Type} [Field α] (v : Vec3 α) : Vec3 α :=
  ⟨-v.x, -v.y, -v.z⟩

/-- 4×4 matrix, as `glm.mat4`. -/
abbrev Mat4 (α : Type) := Matrix (Fin 4) (Fin 4) α

/-- `glm.radians(x) = x * (pi / 180)`. -/
def glmRadians {α : Type} [Field α] (ops : ScalarOps α) (x : α) : α :=
  x * (ops.pi / 180)

/-- The translation matrix `T(v)`: identity except that the fourth column is
`(v.x, v.y, v.z, 1)`.  GLM stores it as `Result[3] = v` (column-major). -/
def translationMat {α : Type} [Field α] (v : Vec3 α) : Mat4 α :=
  !![1, 0, 0, v.x;
     0, 1, 0, v.y;
     0, 0, 1, v.z;
     0, 0, 0, 1]

/-- `glm.translate(m, v) = m * T(v)`. -/
def glmTranslate {α : Type} [Field α] (m : Mat4 α) (v : Vec3 α) : Mat4 α :=
  m * translationMat v

/-- The rotation matrix GLM's `rotate` builds from an angle and an axis
(Rodrigues' formula, written for the already-normalized axes the program
passes: `(1,0,0)`, `(0,1,0)` and `(0,0,1)`, on which GLM's `normalize` is the
identity).  GLM's column-major `Rotate[col][row]` entries are transposed into
row-column convention. -/
def rotationMat {α : Type} [Field α] (ops : ScalarOps α) (angle : α)
    (axis : Vec3 α) : Mat4 α :=
  let c := ops.cos angle
  let s := ops.sin angle
  let t : Vec3 α := ⟨(1 - c) * axis.x, (1 - c) * axis.y, (1 - c) * axis.z⟩
  !![c + t.x * axis.x,     t.y * axis.x - s * axis.z, t.z * axis.x + s * axis.y, 0;
     t.x * axis.y + s * axis.z, c + t.y * axis.y,     t.z * axis.y - s * axis.x, 0;
     t.x * axis.z - s * axis.y, t.y * axis.z + s * axis.x, c + t.z * axis.z,     0;
     0, 0, 0, 1]

/-- `glm.rotate(m, angle, axis) = m * R(angle, axis)`. -/
def glmRotate {α : Type} [Field α] (ops : ScalarOps α) (m : Mat4 α) (angle : α)
    (axis : Vec3 α) : Mat4 α :=
  m * rotationMat ops angle axis

/-- `glm.perspectiveFovLH_NO(fov, width, height, zNear, zFar)`, transcribed
from GLM (`h = cos(fov/2)/sin(fov/2)`, `w = h * height / width`, column-major
entries `Result[2][2]`, `Result[2][3] = 1`, `Result[3][2]` transposed). -/
def perspectiveFovLH_NO {α : Type} [Field α] (ops : ScalarOps α)
    (fov width height zNear zFar : α) : Mat4 α :=
  let h := ops.cos (fov / 2) / ops.sin (fov / 2)
  let w := h * height / width
  !![w, 0, 0, 0;
     0, h, 0, 0;
     0, 0, (zFar + zNear) / (zFar - zNear), -(2 * zFar * zNear) / (zFar - zNear);
     0, 0, 1, 0]

/-- The keys `Viewer.update` queries with `glfw.get_key`. -/
inductive Key where
  | escape | space | w | s | a | d | up | down | left | right | leftShift
deriving DecidableEq

/-- The keyboard / window state `Viewer.update` observes during one call:
which keys `glfw.get_key` reports as pressed, and what
`glfw.window_should_close` returns. -/
structure FrameEnv where
  escape : Bool
  space : Bool
  keyW : Bool
  keyS : Bool
  keyA : Bool
  keyD : Bool
  keyUp : Bool
  keyDown : Bool
  keyLeft : Bool
  keyRight : Bool
  leftShift : Bool
  shouldClose : Bool
deriving DecidableEq

/-- `glfw.get_key(window, k) == glfw.PRESS` under environment `e`. -/
def FrameEnv.pressed (e : FrameEnv) : Key → Bool
  | .escape => e.escape
  | .space => e.space
  | .w => e.keyW
  | .s => e.keyS
  | .a => e.keyA
  | .d => e.keyD
  | .up => e.keyUp
  | .down => e.keyDown
  | .left => e.keyLeft
  | .right => e.keyRight
  | .leftShift => e.leftShift

/-- The symbolic GL / GLFW constants that appear as arguments of the calls the
program makes. -/
inductive GLC where
  | contextVersionMajor | contextVersionMinor | openglForwardCompat
  | arrayBuffer | dynamicDraw | bufferSize
  | texture2D | unpackAlignment | rgba | bgr | unsignedByte
  | textureMinFilter | textureMagFilter | textureWrapS | textureWrapT
  | linear | clampToBorder
  | vertexShader | fragmentShader | compileStatus | linkStatus
  | glFloat | colorBufferBit | texture0 | triangleStrip
deriving DecidableEq

/-- A BGR byte image as OpenCV returns it: a row-major list of rows of
(blue, green, red) byte triples.  `shape[0]` is the number of rows (height),
`shape[1]` the number of columns (width). -/
structure Image where
  rows : List (List (Nat × Nat × Nat))
deriving DecidableEq

/-- `image.shape[0]`: the number of rows. -/
def Image.height (img : Image) : Nat := img.rows.length

/-- `image.shape[1]`: the number of columns (length of the first row; an
OpenCV image is rectangular). -/
def Image.width (img : Image) : Nat := (img.rows.headD []).length

/-- `cv2.flip(image, 0)`: flip around the x-axis, i.e. reverse the row order
(a vertical flip). -/
def Image.flipVertical (img : Image) : Image := ⟨img.rows.reverse⟩

/-- One observable call into GLFW / OpenGL / OpenCV / `print`, with the
arguments the claims talk about. -/
inductive Ev (α : Type) where
  | print (s : String)
  | glfwSetErrorCallback
  | glfwInit
  | glfwWindowHint (hint : GLC) (value : Nat)
  | glfwCreateWindow (width height : Nat) (title : String)
  | glfwMakeContextCurrent
  | glClearColor (r g b a : α)
  | glfwSetWindowSizeCallback
  | glGenBuffers
  | glBindBuffer (target : GLC) (buffer : Nat)
  | glBufferData (target : GLC) (data : List α) (usage : GLC)
  | glGetBufferParameteriv (target : GLC) (pname : GLC)
  | glDeleteBuffers (buffer : Nat)
  | glGenVertexArrays
  | glBindVertexArray (vao : Nat)
  | glEnableVertexAttribArray (index : Nat)
  | glVertexAttribPointer (index size : Nat) (ty : GLC)
  | cvImread (filename : String)
  | cvFlip (flipCode : Int)
  | glGenTextures
  | glBindTexture (target : GLC) (tex : Nat)
  | glPixelStorei (pname : GLC) (value : Nat)
  | glTexImage2D (target : GLC) (level : Nat) (internalFormat : GLC)
      (width height border : Nat) (format ty : GLC) (data : Image)
  | glTexParameteri (target pname value : GLC)
  | fileRead (filename : String)
  | glCreateShader (ty : GLC)
  | glShaderSource (shader : Nat)
  | glCompileShader (shader : Nat)
  | glGetShaderiv (shader : Nat) (pname : GLC)
  | glCreateProgram
  | glAttachShader (program shader : Nat)
  | glDeleteShader (shader : Nat)
  | glLinkProgram (program : Nat)
  | glGetProgramiv (program : Nat) (pname : GLC)
  | glUseProgram (program : Nat)
  | glGetUniformLocation (program : Nat) (name : String)
  | glUniform1i (name : String) (value : Nat)
  | glUniformMatrix4fv (name : String) (value : Mat4 α)
  | glfwGetKey (key : Key)
  | glClear (mask : GLC)
  | glActiveTexture (unit : GLC)
  | glDrawArrays (mode : GLC) (first count : Nat)
  | glfwSwapBuffers
  | glfwPollEvents
  | glfwWindowShouldClose
  | glfwGetFramebufferSize
  | glViewport (x y : Nat) (width height : Int)

/-- How a Python call ends: a normal return carrying the (new) state,
`sys.exit()`, or an uncaught exception (the exception's message). -/
inductive PyOutcome (σ : Type) where
  | ok (value : σ)
  | exited
  | raised (message : String)
deriving DecidableEq

/-- The `CameraProperty` dataclass. -/
structure CameraProperty (α : Type) where
  transform_matrix : Mat4 α
  clipping_distance : α × α
  field_of_view : α

/-- The instance variables `Viewer.__init__` stores on `self` (the model
vertices and uv map are *not* among them — `update` reads the module-level
`model_vertices` instead). -/
structure ViewerState (α : Type) where
  window_size : Nat × Nat
  camera_property : CameraProperty α
  va_object : Nat
  texture : Nat
  shader_program : Nat

/-- The module-level environment `Viewer.update` closes over: the global name
`model_vertices` is bound only when `viewer.py` runs as a script (the
`__main__` block); on import it is absent. -/
structure Globals (α : Type) where
  model_vertices : Option (List α)

/-- `Viewer.update_camera_matrix`: recompute the MVP matrix from the stored
window size and camera property and upload it to the uniform `"mvp_matrix"`.
The method assigns no instance variable, so the state passes through. -/
def update_camera_matrix {α : Type} [Field α] (ops : ScalarOps α)
    (st : ViewerState α) : ViewerState α × List (Ev α) :=
  let perspective_matrix := perspectiveFovLH_NO ops
      (glmRadians ops st.camera_property.field_of_view)
      (st.window_size.1 : α) (st.window_size.2 : α)
      st.camera_property.clipping_distance.1
      st.camera_property.clipping_distance.2
  let mvp_matrix := perspective_matrix * st.camera_property.transform_matrix
  (st,
    [Ev.glUseProgram st.shader_program,
     Ev.glGetUniformLocation st.shader_program "mvp_matrix",
     Ev.glUniformMatrix4fv "mvp_matrix" mvp_matrix])

/-- `Viewer.window_size_callback`: store the *framebuffer* size (`fbSize`,
what `glfw.get_framebuffer_size` returns), recompute and re-upload the camera
matrix from the stored size, then set the viewport to the `new_width` /
`new_height` arguments of the callback. -/
def window_size_callback {α : Type} [Field α] (ops : ScalarOps α)
    (fbSize : Nat × Nat) (new_width new_height : Int)
    (st : ViewerState α) : ViewerState α × List (Ev α) :=
  let st1 := { st with window_size := fbSize }
  let (st2, evs) := update_camera_matrix ops st1
  (st2, Ev.glfwGetFramebufferSize :: evs ++ [Ev.glViewport 0 0 new_width new_height])

/-- `trans_delta = 0.01` -/
def trans_delta {α : Type} [Field α] : α := 1 / 100

/-- `rot_delta = 0.005` -/
def rot_delta {α : Type} [Field α] : α := 1 / 200

/-- The translation vector `trans` accumulated by the key checks in
`Viewer.update` (lines 345–362 of `viewer.py`). -/
def transOf {α : Type} [Field α] (e : FrameEnv) : Vec3 α :=
  let t : Vec3 α := ⟨0, 0, 0⟩
  let t := if e.pressed .w then
      (if ¬ (e.pressed .leftShift) then { t with z := t.z + trans_delta }
       else { t with y := t.y + trans_delta }) else t
  let t := if e.pressed .s then
      (if ¬ (e.pressed .leftShift) then { t with z := t.z - trans_delta }
       else { t with y := t.y - trans_delta }) else t
  let t := if e.pressed .d then { t with x := t.x + trans_delta } else t
  let t := if e.pressed .a then { t with x := t.x - trans_delta } else t
  t

/-- The rotation vector `rot` accumulated by the key checks in
`Viewer.update` (lines 363–370 of `viewer.py`). -/
def rotOf {α : Type} [Field α] (e : FrameEnv) : Vec3 α :=
  let r : Vec3 α := ⟨0, 0, 0⟩
  let r := if e.pressed .up then { r with x := r.x + rot_delta } else r
  let r := if e.pressed .down then { r with x := r.x - rot_delta } else r
  let r := if e.pressed .left then { r with y := r.y + rot_delta } else r
  let r := if e.pressed .right then { r with y := r.y - rot_delta } else r
  r

/-- The delta matrix `tmat` of `Viewer.update` (lines 372–376): identity,
translated by `-trans`, then rotated by `radians(rot.x)`, `radians(rot.y)`,
`radians(rot.z)` about the x, y and z axes. -/
def tmatOf {α : Type} [Field α] (ops : ScalarOps α) (e : FrameEnv) : Mat4 α :=
  let trans := transOf (α := α) e
  let rot := rotOf (α := α) e
  let tmat : Mat4 α := 1
  let tmat := glmTranslate tmat trans.neg
  let tmat := glmRotate ops tmat (glmRadians ops rot.x) ⟨1, 0, 0⟩
  let tmat := glmRotate ops tmat (glmRadians ops rot.y) ⟨0, 1, 0⟩
  let tmat := glmRotate ops tmat (glmRadians ops rot.z) ⟨0, 0, 1⟩
  tmat

/-- The `glfw.get_key` events emitted by the camera-motion section of
`Viewer.update` when SPACE is not pressed (LEFT_SHIFT is only queried inside
a taken W or S branch). -/
def motionKeyReads {α : Type} (e : FrameEnv) : List (Ev α) :=
  ([Ev.glfwGetKey .w] ++ (if e.pressed .w then [Ev.glfwGetKey .leftShift] else [])) ++
  ([Ev.glfwGetKey .s] ++ (if e.pressed .s then [Ev.glfwGetKey .leftShift] else [])) ++
  [Ev.glfwGetKey .d] ++ [Ev.glfwGetKey .a] ++
  [Ev.glfwGetKey .up] ++ [Ev.glfwGetKey .down] ++
  [Ev.glfwGetKey .left] ++ [Ev.glfwGetKey .right]

/-- `Viewer.update`: one frame.  Returns the trace of calls and either
`ok (st', ret)` — the new state and the Python return value — or the uncaught
`NameError` hit at the draw call when the module global `model_vertices` is
unbound. -/
def Viewer.update {α : Type} [Field α] (ops : ScalarOps α) (g : Globals α)
    (e : FrameEnv) (st : ViewerState α) :
    List (Ev α) × PyOutcome (ViewerState α × Bool) :=
  -- if glfw.get_key(ESCAPE) == PRESS: return False
  if e.pressed .escape then
    ([Ev.glfwGetKey .escape], .ok (st, false))
  else
    -- camera motion
    let (motionEvs, st1) :=
      if e.pressed .space then
        ([(Ev.glfwGetKey .space : Ev α)],
         { st with camera_property :=
             { st.camera_property with transform_matrix := 1 } })
      else
        let newTransform := tmatOf ops e * st.camera_property.transform_matrix
        ([(Ev.glfwGetKey .space : Ev α)] ++ motionKeyReads e,
         { st with camera_property :=
             { st.camera_property with transform_matrix := newTransform } })
    let (st2, camEvs) := update_camera_matrix ops st1
    let drawSetup : List (Ev α) :=
      [Ev.glClear .colorBufferBit,
       Ev.glUseProgram st2.shader_program,
       Ev.glBindVertexArray st2.va_object,
       Ev.glActiveTexture .texture0,
       Ev.glBindTexture .texture2D st2.texture]
    match g.model_vertices with
    | none =>
        ([Ev.glfwGetKey .escape] ++ motionEvs ++ camEvs ++ drawSetup,
         .raised "NameError: name 'model_vertices' is not defined")
    | some vs =>
        ([Ev.glfwGetKey .escape] ++ motionEvs ++ camEvs ++ drawSetup ++
         [Ev.glDrawArrays .triangleStrip 0 (vs.length / 3),
          Ev.glBindVertexArray 0,
          Ev.glBindTexture .texture2D 0,
          Ev.glfwSwapBuffers,
          Ev.glfwPollEvents,
          Ev.glfwWindowShouldClose],
         .ok (st2, !e.shouldClose))

/-- What the GL driver / filesystem answers during one shader load:
the `GL_COMPILE_STATUS` result and the info log used in the error print. -/
structure ShaderEnv where
  compileOk : Bool
  infoLog : String
deriving DecidableEq

/-- Everything the environment decides during `Viewer.__init__`: which
fallible steps succeed, the size the driver reports for each buffer
allocation, the image `cv2.imread` returns, and the IDs the `glGen*` /
`glCreate*` calls hand out. -/
structure InitEnv where
  glfwInitOk : Bool
  createWindowOk : Bool
  vertexSizeAllocated : Nat
  uvSizeAllocated : Nat
  image : Option Image
  vertShader : ShaderEnv
  fragShader : ShaderEnv
  linkOk : Bool
  vertexBufferId : Nat
  uvBufferId : Nat
  vaoId : Nat
  textureId : Nat
  vertShaderId : Nat
  fragShaderId : Nat
  programId : Nat

/-- `Viewer.load_shader`: read the shader file, hand the source to GL,
compile, and check `GL_COMPILE_STATUS`; on failure print the info log and
return `False`. -/
def Viewer.load_shader {α : Type} (sh : ShaderEnv) (shader_id : Nat)
    (filename : String) : List (Ev α) × Bool :=
  let evs : List (Ev α) :=
    [Ev.fileRead filename,
     Ev.glShaderSource shader_id,
     Ev.glCompileShader shader_id,
     Ev.glGetShaderiv shader_id .compileStatus]
  if sh.compileOk then (evs, true)
  else (evs ++ [Ev.print ("[GLFW Error] " ++ sh.infoLog)], false)

/-- `Viewer.__init__`: the whole constructor, phase by phase in source order
(window, buffers, texture, camera parameters, shaders).  Returns the trace of
calls and the outcome: the constructed state, `sys.exit()`, or — on a link
failure — the `NameError` raised while formatting the error message, because
the name `shader_id` is unbound in `__init__` (it is a parameter of
`load_shader`), so the `print`/`sys.exit()` pair on lines 320–321 is never
reached. -/
def Viewer.init {α : Type} [Field α] (ops : ScalarOps α) (env : InitEnv)
    (model_vertices model_uvmap : List α)
    (texture_filename window_title : String) :
    List (Ev α) × PyOutcome (ViewerState α) :=
  let acc : List (Ev α) :=
    [Ev.print "Initializing Viewer...", Ev.glfwSetErrorCallback, Ev.glfwInit]
  if ¬ env.glfwInitOk then
    (acc ++ [Ev.print "[GLFW Error] Failed to initialize GLFW. "], .exited)
  else
    let acc := acc ++
      [Ev.print "- Creating a window.",
       Ev.glfwWindowHint .contextVersionMajor 3,
       Ev.glfwWindowHint .contextVersionMinor 3,
       Ev.glfwWindowHint .openglForwardCompat 1,
       Ev.glfwCreateWindow 640 480 window_title]
    if ¬ env.createWindowOk then
      (acc ++ [Ev.print "[GLFW Error] Failed to Create a window. "], .exited)
    else
      let acc := acc ++
        [Ev.glfwMakeContextCurrent,
         Ev.glClearColor 0 1 1 1,
         Ev.glfwSetWindowSizeCallback,
         Ev.print "- Preparing buffers.",
         Ev.glGenBuffers,
         Ev.glBindBuffer .arrayBuffer env.vertexBufferId,
         Ev.glBufferData .arrayBuffer model_vertices .dynamicDraw,
         Ev.glGetBufferParameteriv .arrayBuffer .bufferSize]
      if env.vertexSizeAllocated ≠ 4 * model_vertices.length then
        (acc ++
          [Ev.print "[GL Error] Failed to allocate memory for buffer. ",
           Ev.glDeleteBuffers env.vertexBufferId], .exited)
      else
        let acc := acc ++
          [Ev.glGenBuffers,
           Ev.glBindBuffer .arrayBuffer env.uvBufferId,
           Ev.glBufferData .arrayBuffer model_uvmap .dynamicDraw,
           Ev.glGetBufferParameteriv .arrayBuffer .bufferSize]
        if env.uvSizeAllocated ≠ 4 * model_uvmap.length then
          (acc ++
            [Ev.print "[GL Error] Failed to allocate memory for buffer. ",
             Ev.glDeleteBuffers env.uvBufferId], .exited)
        else
          let acc := acc ++
            [Ev.glGenVertexArrays,
             Ev.glBindVertexArray env.vaoId,
             Ev.glEnableVertexAttribArray 0,
             Ev.glBindBuffer .arrayBuffer env.vertexBufferId,
             Ev.glVertexAttribPointer 0 3 .glFloat,
             Ev.glEnableVertexAttribArray 1,
             Ev.glBindBuffer .arrayBuffer env.uvBufferId,
             Ev.glVertexAttribPointer 1 2 .glFloat,
             Ev.glBindVertexArray 0,
             Ev.glBindBuffer .arrayBuffer 0,
             Ev.print "- Preparing textures.",
             Ev.cvImread texture_filename]
          match env.image with
          | none =>
              (acc ++
                [Ev.print ("[CV Error] Cannot open image: " ++ texture_filename)],
               .exited)
          | some img0 =>
              let img := img0.flipVertical
              let acc := acc ++
                [Ev.cvFlip 0,
                 Ev.glGenTextures,
                 Ev.glBindTexture .texture2D env.textureId,
                 Ev.glPixelStorei .unpackAlignment 1,
                 Ev.glTexImage2D .texture2D 0 .rgba img.width img.height 0
                   .bgr .unsignedByte img,
                 Ev.glTexParameteri .texture2D .textureMinFilter .linear,
                 Ev.glTexParameteri .texture2D .textureMagFilter .linear,
                 Ev.glTexParameteri .texture2D .textureWrapS .clampToBorder,
                 Ev.glTexParameteri .texture2D .textureWrapT .clampToBorder,
                 Ev.glBindTexture .texture2D 0,
                 Ev.print "- Setting camera parameters."]
              let trans : Vec3 α := ⟨0, 0, 0⟩
              let rot : Vec3 α := ⟨0, 0, 0⟩
              let transform_matrix : Mat4 α := 1
              let transform_matrix := glmTranslate transform_matrix trans
              let transform_matrix :=
                glmRotate ops transform_matrix (glmRadians ops rot.x) ⟨1, 0, 0⟩
              let transform_matrix :=
                glmRotate ops transform_matrix (glmRadians ops rot.y) ⟨0, 1, 0⟩
              let transform_matrix :=
                glmRotate ops transform_matrix (glmRadians ops rot.z) ⟨0, 0, 1⟩
              let camera_property : CameraProperty α :=
                ⟨transform_matrix, (10, 1000), 60⟩
              let acc := acc ++
                [Ev.print "- Preparing shaders.",
                 Ev.glCreateShader .vertexShader]
              let (vertEvs, vertOk) :=
                Viewer.load_shader (α := α) env.vertShader env.vertShaderId
                  "glsl/vertex.glsl"
              let acc := acc ++ vertEvs
              if ¬ vertOk then (acc, .exited)
              else
                let acc := acc ++ [Ev.glCreateShader .fragmentShader]
                let (fragEvs, fragOk) :=
                  Viewer.load_shader (α := α) env.fragShader env.fragShaderId
                    "glsl/fragment.glsl"
                let acc := acc ++ fragEvs
                if ¬ fragOk then (acc, .exited)
                else
                  let acc := acc ++
                    [Ev.glCreateProgram,
                     Ev.glAttachShader env.programId env.vertShaderId,
                     Ev.glAttachShader env.programId env.fragShaderId,
                     Ev.glDeleteShader env.vertShaderId,
                     Ev.glDeleteShader env.fragShaderId,
                     Ev.glLinkProgram env.programId,
                     Ev.glGetProgramiv env.programId .linkStatus]
                  if ¬ env.linkOk then
                    -- line 320 evaluates f"... {glGetShaderInfoLog(shader_id)}"
                    -- with `shader_id` unbound: NameError, nothing printed.
                    (acc, .raised "NameError: name 'shader_id' is not defined")
                  else
                    (acc ++
                      [Ev.glUseProgram env.programId,
                       Ev.glGetUniformLocation env.programId "sampler",
                       Ev.glUniform1i "sampler" 0,
                       Ev.print "Initialization done. "],
                     .ok { window_size := (640, 480),
                           camera_property := camera_property,
                           va_object := env.vaoId,
                           texture := env.textureId,
                           shader_program := env.programId })

/-- The per-frame phases named by the specification's frame loop. -/
inductive Phase where
  | pollInput | updateCamera | clear | draw | present
deriving DecidableEq

/-- Classify an event into the spec's frame phases: `glfw.get_key` reads are
the keyboard polling, the `"mvp_matrix"` upload is the camera update,
`glClear` the clear, `glDrawArrays` the draw, and `glfw.swap_buffers` the
presentation of the frame. -/
def phaseOf {α : Type} : Ev α → Option Phase
  | .glfwGetKey _ => some .pollInput
  | .glUniformMatrix4fv _ _ => some .updateCamera
  | .glClear _ => some .clear
  | .glDrawArrays _ _ _ => some .draw
  | .glfwSwapBuffers => some .present
  | _ => none

/-- The strings printed along a trace, in order. -/
def printsOf {α : Type} : List (Ev α) → List String :=
  List.filterMap fun ev => match ev with
    | .print s => some s
    | _ => none

/-- Does the event create the GLFW window? -/
def isCreateWindowEv {α : Type} : Ev α → Bool
  | .glfwCreateWindow _ _ _ => true
  | _ => false

/-- Is the event a vertex/uv buffer upload (`glBufferData`)? -/
def isBufferDataEv {α : Type} : Ev α → Bool
  | .glBufferData _ _ _ => true
  | _ => false

/-- Is the event the texture upload (`glTexImage2D`)? -/
def isTexImage2DEv {α : Type} : Ev α → Bool
  | .glTexImage2D _ _ _ _ _ _ _ _ _ => true
  | _ => false

/-- Is the event a shader compilation (`glCompileShader`)? -/
def isCompileShaderEv {α : Type} : Ev α → Bool
  | .glCompileShader _ => true
  | _ => false

/-- Is the event the `print` marking the camera-parameter phase (the phase
makes no GL calls, so its banner print is its only observable)? -/
def isCameraPrintEv {α : Type} : Ev α → Bool
  | .print s => s = "- Setting camera parameters."
  | _ => false

/-- The first matrix uploaded to the uniform `"mvp_matrix"` in a trace. -/
def uploadedMvp {α : Type} (t : List (Ev α)) : Option (Mat4 α) :=
  t.findSome? fun ev => match ev with
    | .glUniformMatrix4fv n m => if n = "mvp_matrix" then some m else none
    | _ => none

/-- Concrete scalar operations over `ℚ` for witnesses: any values satisfying
`cos 0 = 1` and `sin 0 = 0` will do. -/
def opsQ : ScalarOps ℚ := ⟨fun _ => 1, fun _ => 0, 0⟩

/-- The quad vertices of the `__main__` block. -/
def sampleVertices : List ℚ :=
  [10, 10, 50, -10, 10, 50, 10, -10, 50, -10, -10, 50]

/-- The uv map of the `__main__` block. -/
def sampleUV : List ℚ := [1, 1, 0, 1, 1, 0, 0, 0]

/-- A small 2×2 BGR image. -/
def sampleImage : Image :=
  ⟨[[(1, 2, 3), (4, 5, 6)], [(7, 8, 9), (10, 11, 12)]]⟩

/-- An environment in which every setup step of `Viewer.__init__` succeeds
(buffer sizes match `4 * len` for the sample data). -/
def okEnv : InitEnv :=
  { glfwInitOk := true
    createWindowOk := true
    vertexSizeAllocated := 48
    uvSizeAllocated := 32
    image := some sampleImage
    vertShader := ⟨true, ""⟩
    fragShader := ⟨true, ""⟩
    linkOk := true
    vertexBufferId := 1
    uvBufferId := 2
    vaoId := 1
    textureId := 1
    vertShaderId := 1
    fragShaderId := 2
    programId := 1 }

/-- `okEnv` except that linking the shader program fails
(`GL_LINK_STATUS != GL_TRUE`). -/
def linkFailEnv : InitEnv := { okEnv with linkOk := false }

/-- A concrete viewer state for witnesses. -/
def sampleState : ViewerState ℚ :=
  { window_size := (640, 480)
    camera_property := ⟨1, (10, 1000), 60⟩
    va_object := 1
    texture := 1
    shader_program := 1 }

/-- A frame in which no key is pressed and the window is not closing. -/
def idleFrame : FrameEnv :=
  ⟨false, false, false, false, false, false, false, false, false, false,
   false, false⟩

/-- A frame in which only ESCAPE is pressed. -/
def escFrame : FrameEnv := { idleFrame with escape := true }

/-- A frame in which only W is pressed. -/
def wFrame : FrameEnv := { idleFrame with keyW := true }

/-- `glm.radians 0 = 0`. -/
theorem glmRadians_zero {α : Type} [Field α] (ops : ScalarOps α) :
    glmRadians ops 0 = 0 := by
  simp [glmRadians]

/-- Translating by the zero vector is the identity matrix. -/
theorem translationMat_zero {α : Type} [Field α] :
    translationMat (⟨0, 0, 0⟩ : Vec3 α) = 1 := by
  unfold translationMat
  ext i j
  fin_cases i <;> fin_cases j <;>
    simp [Matrix.one_apply, Matrix.vecHead, Matrix.vecTail]

/-- With ideal trigonometry (`cos 0 = 1`, `sin 0 = 0`), rotating by angle `0`
about any axis is the identity matrix. -/
theorem rotationMat_zero {α : Type} [Field α] (ops : ScalarOps α)
    (axis : Vec3 α) (hc : ops.cos 0 = 1) (hsin : ops.sin 0 = 0) :
    rotationMat ops 0 axis = 1 := by
  unfold rotationMat
  ext i j
  fin_cases i <;> fin_cases j <;>
    simp [hc, hsin, Matrix.one_apply, Matrix.vecHead, Matrix.vecTail]

/-- The accumulated rotation vector never acquires a `z` component: no key
modifies `rot.z`. -/
theorem rotOf_z {α : Type} [Field α] (e : FrameEnv) :
    (rotOf (α := α) e).z = 0 := by
  unfold rotOf
  cases e.pressed .up <;> cases e.pressed .down <;> cases e.pressed .left <;>
    cases e.pressed .right <;> rfl

/-- Because `rot.z` is always `0`, the delta matrix of `Viewer.update` equals
the claim's delta: identity, translated by `-trans`, rotated about x by
`radians(rot.x)` and about y by `radians(rot.y)` (the program's final
z-rotation is by angle `radians 0 = 0`). -/
theorem tmatOf_no_z_rotation {α : Type} [Field α] (ops : ScalarOps α)
    (e : FrameEnv) (hc : ops.cos 0 = 1) (hsin : ops.sin 0 = 0) :
    tmatOf ops e =
      glmRotate ops (glmRotate ops (glmTranslate (1 : Mat4 α) (transOf e).neg)
          (glmRadians ops (rotOf (α := α) e).x) ⟨1, 0, 0⟩)
        (glmRadians ops (rotOf (α := α) e).y) ⟨0, 1, 0⟩ := by
  simp only [tmatOf]
  rw [rotOf_z, glmRadians_zero]
  rw [show ∀ m : Mat4 α, glmRotate ops m 0 ⟨0, 0, 1⟩ = m from fun m => by
    rw [glmRotate, rotationMat_zero ops _ hc hsin, mul_one]]

/-- C9: if ESCAPE is pressed, `Viewer.update` returns `False` immediately:
the only call made is the ESCAPE key read — no camera update, clear, draw,
buffer swap or event poll — and the state is unchanged. -/
theorem C9_escape_early_return {α : Type} [Field α] (ops : ScalarOps α)
    (g : Globals α) (e : FrameEnv) (st : ViewerState α)
    (h : e.escape = true) :
    Viewer.update ops g e st = ([Ev.glfwGetKey Key.escape], .ok (st, false)) := by
  simp [Viewer.update, FrameEnv.pressed, h]

/-- Witness for C9 at a concrete frame with ESCAPE pressed. -/
theorem C9_escape_early_return_witness :
    escFrame.escape = true ∧
    Viewer.update opsQ ⟨some sampleVertices⟩ escFrame sampleState =
      ([Ev.glfwGetKey Key.escape], .ok (sampleState, false)) :=
  ⟨rfl, C9_escape_early_return opsQ ⟨some sampleVertices⟩ escFrame sampleState rfl⟩

/-- C4: `update_camera_matrix` leaves the state (hence `camera_property` and
`window_size`) unchanged and uploads to `"mvp_matrix"` exactly
`perspectiveFovLH_NO(radians(fov), width, height, near, far) * transform`,
perspective matrix on the left. -/
theorem C4_update_camera_matrix_uploads_mvp {α : Type} [Field α]
    (ops : ScalarOps α) (st : ViewerState α) :
    (update_camera_matrix ops st).1 = st ∧
    uploadedMvp (update_camera_matrix ops st).2 =
      some (perspectiveFovLH_NO ops
          (glmRadians ops st.camera_property.field_of_view)
          (st.window_size.1 : α) (st.window_size.2 : α)
          st.camera_property.clipping_distance.1
          st.camera_property.clipping_distance.2 *
        st.camera_property.transform_matrix) :=
  ⟨rfl, rfl⟩

/-- C6: on resize, the stored `window_size` becomes the framebuffer size (not
the callback's arguments), the MVP matrix is recomputed from that stored size
and re-uploaded, and the viewport is set to the callback's `new_width` and
`new_height`. -/
theorem C6_window_size_callback_behavior {α : Type} [Field α]
    (ops : ScalarOps α) (fbSize : Nat × Nat) (new_width new_height : Int)
    (st : ViewerState α) :
    (window_size_callback ops fbSize new_width new_height st).1 =
      { st with window_size := fbSize } ∧
    (window_size_callback ops fbSize new_width new_height st).2 =
      [Ev.glfwGetFramebufferSize,
       Ev.glUseProgram st.shader_program,
       Ev.glGetUniformLocation st.shader_program "mvp_matrix",
       Ev.glUniformMatrix4fv "mvp_matrix"
         (perspectiveFovLH_NO ops
            (glmRadians ops st.camera_property.field_of_view)
            (fbSize.1 : α) (fbSize.2 : α)
            st.camera_property.clipping_distance.1
            st.camera_property.clipping_distance.2 *
          st.camera_property.transform_matrix),
       Ev.glViewport 0 0 new_width new_height] :=
  ⟨rfl, rfl⟩

/-- C3: in a frame with ESCAPE unpressed (and the module global
`model_vertices` bound, so the frame completes): if SPACE is pressed, the new
transform matrix is reset to the identity; otherwise it is the delta matrix —
identity translated by the negated key-driven translation vector, then
rotated about x by `radians(rot.x)` and about y by `radians(rot.y)` —
left-multiplied onto the old transform matrix.  The key-driven vectors are
`transOf` and `rotOf`, transcribed from the source's key checks (W/S: ±0.01
on z, or on y under LEFT_SHIFT; D/A: ±0.01 on x; UP/DOWN: ±0.005 on rot.x;
LEFT/RIGHT: ±0.005 on rot.y). -/
theorem C3_update_transform_composition {α : Type} [Field α]
    (ops : ScalarOps α) (g : Globals α) (e : FrameEnv) (st : ViewerState α)
    (vs : List α) (hc : ops.cos 0 = 1) (hsin : ops.sin 0 = 0)
    (hesc : e.escape = false) (hg : g.model_vertices = some vs) :
    ∃ st' : ViewerState α,
      (Viewer.update ops g e st).2 = .ok (st', !e.shouldClose) ∧
      st'.camera_property.transform_matrix =
        if e.space then 1
        else
          glmRotate ops (glmRotate ops
              (glmTranslate (1 : Mat4 α) (transOf e).neg)
              (glmRadians ops (rotOf (α := α) e).x) ⟨1, 0, 0⟩)
            (glmRadians ops (rotOf (α := α) e).y) ⟨0, 1, 0⟩ *
          st.camera_property.transform_matrix := by
  cases hspace : e.space
  · refine ⟨{ st with camera_property := { st.camera_property with
      transform_matrix := tmatOf ops e * st.camera_property.transform_matrix } },
      ?_, ?_⟩
    · simp [Viewer.update, FrameEnv.pressed, hesc, hspace, hg,
        update_camera_matrix]
    · simpa [hspace] using (tmatOf_no_z_rotation ops e hc hsin) ▸ rfl
  · refine ⟨{ st with camera_property := { st.camera_property with
      transform_matrix := 1 } }, ?_, ?_⟩
    · simp [Viewer.update, FrameEnv.pressed, hesc, hspace, hg,
        update_camera_matrix]
    · simp [hspace]

/-- Witness for C3: a concrete frame with only W pressed. -/
theorem C3_update_transform_composition_witness :
    ∃ st' : ViewerState ℚ,
      (Viewer.update opsQ ⟨some sampleVertices⟩ wFrame sampleState).2 =
        .ok (st', !wFrame.shouldClose) ∧
      st'.camera_property.transform_matrix =
        if wFrame.space then 1
        else
          glmRotate opsQ (glmRotate opsQ
              (glmTranslate (1 : Mat4 ℚ) (transOf wFrame).neg)
              (glmRadians opsQ (rotOf (α := ℚ) wFrame).x) ⟨1, 0, 0⟩)
            (glmRadians opsQ (rotOf (α := ℚ) wFrame).y) ⟨0, 1, 0⟩ *
          sampleState.camera_property.transform_matrix :=
  C3_update_transform_composition opsQ ⟨some sampleVertices⟩ wFrame sampleState
    sampleVertices rfl rfl rfl rfl

/-- C10: when none of ESCAPE, SPACE, W, S, A, D, UP, DOWN, LEFT, RIGHT is
pressed, the accumulated translation and rotation are zero, the delta matrix
is the identity, and the transform matrix is unchanged by the call. -/
theorem C10_idle_keys_identity {α : Type} [Field α] (ops : ScalarOps α)
    (g : Globals α) (e : FrameEnv) (st : ViewerState α) (vs : List α)
    (hc : ops.cos 0 = 1) (hsin : ops.sin 0 = 0)
    (h1 : e.escape = false) (h2 : e.space = false) (h3 : e.keyW = false)
    (h4 : e.keyS = false) (h5 : e.keyA = false) (h6 : e.keyD = false)
    (h7 : e.keyUp = false) (h8 : e.keyDown = false) (h9 : e.keyLeft = false)
    (h10 : e.keyRight = false) (hg : g.model_vertices = some vs) :
    tmatOf ops e = 1 ∧
    ∃ st' : ViewerState α,
      (Viewer.update ops g e st).2 = .ok (st', !e.shouldClose) ∧
      st'.camera_property.transform_matrix =
        st.camera_property.transform_matrix := by
  have ht : transOf (α := α) e = ⟨0, 0, 0⟩ := by
    simp [transOf, FrameEnv.pressed, h3, h4, h5, h6]
  have hr : rotOf (α := α) e = ⟨0, 0, 0⟩ := by
    simp [rotOf, FrameEnv.pressed, h7, h8, h9, h10]
  have hneg : (transOf (α := α) e).neg = ⟨0, 0, 0⟩ := by
    simp [ht, Vec3.neg]
  have htm : tmatOf ops e = 1 := by
    simp only [tmatOf, hr, hneg, glmTranslate, glmRotate, glmRadians_zero,
      translationMat_zero, rotationMat_zero ops _ hc hsin, mul_one, one_mul]
  refine ⟨htm, { st with camera_property := { st.camera_property with
    transform_matrix := tmatOf ops e * st.camera_property.transform_matrix } },
    ?_, ?_⟩
  · simp [Viewer.update, FrameEnv.pressed, h1, h2, hg, update_camera_matrix]
  · simp [htm]

/-- Witness for C10: the idle frame. -/
theorem C10_idle_keys_identity_witness :
    tmatOf opsQ idleFrame = 1 ∧
    ∃ st' : ViewerState ℚ,
      (Viewer.update opsQ ⟨some sampleVertices⟩ idleFrame sampleState).2 =
        .ok (st', !idleFrame.shouldClose) ∧
      st'.camera_property.transform_matrix =
        sampleState.camera_property.transform_matrix :=
  C10_idle_keys_identity opsQ ⟨some sampleVertices⟩ idleFrame sampleState
    sampleVertices rfl rfl rfl rfl rfl rfl rfl rfl rfl rfl rfl rfl rfl

/-- C8: the draw call's vertex count is `len(model_vertices) // 3` computed
from the module-level global `model_vertices` — the viewer state carries no
vertex data at all (`ViewerState` mirrors exactly the instance variables
`__init__` assigns) — and when that global is unbound (`viewer.py` imported
rather than run as a script) a frame with ESCAPE unpressed raises a
`NameError` at the draw call. -/
theorem C8_draw_count_from_module_global {α : Type} [Field α]
    (ops : ScalarOps α) (e : FrameEnv) (st : ViewerState α) (vs : List α)
    (hesc : e.escape = false) :
    Ev.glDrawArrays GLC.triangleStrip 0 (vs.length / 3) ∈
      (Viewer.update ops ⟨some vs⟩ e st).1 ∧
    (Viewer.update ops (⟨none⟩ : Globals α) e st).2 =
      .raised "NameError: name 'model_vertices' is not defined" := by
  constructor <;>
    cases hsp : e.space <;>
      simp [Viewer.update, FrameEnv.pressed, hesc, hsp, update_camera_matrix]

/-- Witness for C8 at the idle frame and the sample vertices. -/
theorem C8_draw_count_from_module_global_witness :
    Ev.glDrawArrays GLC.triangleStrip 0 (sampleVertices.length / 3) ∈
      (Viewer.update opsQ ⟨some sampleVertices⟩ idleFrame sampleState).1 ∧
    (Viewer.update opsQ (⟨none⟩ : Globals ℚ) idleFrame sampleState).2 =
      .raised "NameError: name 'model_vertices' is not defined" :=
  C8_draw_count_from_module_global opsQ idleFrame sampleState sampleVertices rfl

/-- Every event of the camera-motion key section is a `glfw.get_key` read, so
its phase image is all `pollInput`. -/
theorem motionKeyReads_phases {α : Type} (e : FrameEnv) :
    (motionKeyReads (α := α) e).filterMap phaseOf =
      List.replicate (motionKeyReads (α := α) e).length Phase.pollInput := by
  unfold motionKeyReads
  cases e.pressed .w <;> cases e.pressed .s <;> rfl

/-- C5: a call to `Viewer.update` with ESCAPE unpressed that completes its
frame performs, in this order: the keyboard reads (one or more `get_key`
calls, nothing else first), then the camera-matrix upload, then the color
clear, then the draw, then the buffer swap that presents the frame.
(`glfw.poll_events`, which processes the window event queue for the *next*
frame, follows the swap and is classified as none of these phases.) -/
theorem C5_update_frame_order {α : Type} [Field α] (ops : ScalarOps α)
    (e : FrameEnv) (st : ViewerState α) (vs : List α)
    (hesc : e.escape = false) :
    ∃ k, 1 ≤ k ∧
      (Viewer.update ops ⟨some vs⟩ e st).1.filterMap phaseOf =
        List.replicate k Phase.pollInput ++
          [Phase.updateCamera, Phase.clear, Phase.draw, Phase.present] := by
  cases hsp : e.space
  · refine ⟨(motionKeyReads (α := α) e).length.succ.succ,
      Nat.succ_le_succ (Nat.zero_le _), ?_⟩
    simp [Viewer.update, FrameEnv.pressed, hesc, hsp, update_camera_matrix,
      List.filterMap_append, motionKeyReads_phases, phaseOf,
      List.replicate_succ]
  · refine ⟨2, by norm_num, ?_⟩
    simp [Viewer.update, FrameEnv.pressed, hesc, hsp, update_camera_matrix,
      List.filterMap_append, phaseOf, List.replicate_succ]

/-- Witness for C5 at the idle frame. -/
theorem C5_update_frame_order_witness :
    ∃ k, 1 ≤ k ∧
      (Viewer.update opsQ ⟨some sampleVertices⟩ idleFrame sampleState).1.filterMap
          phaseOf =
        List.replicate k Phase.pollInput ++
          [Phase.updateCamera, Phase.clear, Phase.draw, Phase.present] :=
  C5_update_frame_order opsQ idleFrame sampleState sampleVertices rfl

/-- C1 (failing input): when linking the shader program fails
(`GL_LINK_STATUS != GL_TRUE`), `Viewer.__init__` does *not* print an error
and exit — evaluating the error f-string references the unbound name
`shader_id` (a parameter of `load_shader`, not a name in `__init__`), so a
`NameError` is raised before anything is printed and `sys.exit()` on line 321
is never reached.  The last thing printed is the phase banner
`"- Preparing shaders."`. -/
theorem C1_link_failure_raises_NameError :
    (Viewer.init opsQ linkFailEnv sampleVertices sampleUV "img/invader.png"
        "Sample").2 =
      .raised "NameError: name 'shader_id' is not defined" ∧
    (printsOf (Viewer.init opsQ linkFailEnv sampleVertices sampleUV
        "img/invader.png" "Sample").1).getLast? =
      some "- Preparing shaders." := by
  constructor <;> rfl

/-- C2 (counterexample): in a fully successful construction, the first shader
compilation happens strictly *after* the first mesh-buffer upload (and both
happen), contradicting the claimed order initialize-window → compile-shaders
→ upload-mesh → upload-texture → set-camera. -/
theorem C2_shaders_not_before_buffers :
    (Viewer.init opsQ okEnv sampleVertices sampleUV "img/invader.png"
          "Sample").1.findIdx isBufferDataEv <
      (Viewer.init opsQ okEnv sampleVertices sampleUV "img/invader.png"
          "Sample").1.findIdx isCompileShaderEv ∧
    (Viewer.init opsQ okEnv sampleVertices sampleUV "img/invader.png"
          "Sample").1.findIdx isCompileShaderEv <
      (Viewer.init opsQ okEnv sampleVertices sampleUV "img/invader.png"
          "Sample").1.length := by
  decide

/-- C2 (amended): whenever every setup step succeeds, `Viewer.__init__`
performs its phases in the order: initialize the window, then upload the mesh
buffers, then upload the texture, then set the camera parameters, then
compile the shaders — witnessed in the trace by the window creation, the
first buffer upload, the texture upload, the camera phase banner, and the
first shader compilation, whose first indices are strictly increasing (and
all present). -/
theorem C2_init_phase_order {α : Type} [Field α] (ops : ScalarOps α)
    (env : InitEnv) (mv uv : List α) (tf wt : String) (img : Image)
    (h1 : env.glfwInitOk = true) (h2 : env.createWindowOk = true)
    (h3 : env.vertexSizeAllocated = 4 * mv.length)
    (h4 : env.uvSizeAllocated = 4 * uv.length)
    (h5 : env.image = some img)
    (h6 : env.vertShader.compileOk = true)
    (h7 : env.fragShader.compileOk = true)
    (h8 : env.linkOk = true) :
    (Viewer.init ops env mv uv tf wt).1.findIdx isCreateWindowEv <
      (Viewer.init ops env mv uv tf wt).1.findIdx isBufferDataEv ∧
    (Viewer.init ops env mv uv tf wt).1.findIdx isBufferDataEv <
      (Viewer.init ops env mv uv tf wt).1.findIdx isTexImage2DEv ∧
    (Viewer.init ops env mv uv tf wt).1.findIdx isTexImage2DEv <
      (Viewer.init ops env mv uv tf wt).1.findIdx isCameraPrintEv ∧
    (Viewer.init ops env mv uv tf wt).1.findIdx isCameraPrintEv <
      (Viewer.init ops env mv uv tf wt).1.findIdx isCompileShaderEv ∧
    (Viewer.init ops env mv uv tf wt).1.findIdx isCompileShaderEv <
      (Viewer.init ops env mv uv tf wt).1.length := by
  simp only [Viewer.init, Viewer.load_shader, h1, h2, h3, h4, h5, h6, h7, h8,
    ne_eq, not_true_eq_false, not_false_eq_true, if_false, if_true,
    ite_false, ite_true, Bool.not_true, List.append_assoc, List.cons_append,
    List.nil_append]
  norm_num [List.findIdx_cons, isCreateWindowEv, isBufferDataEv,
    isTexImage2DEv, isCameraPrintEv, isCompileShaderEv]
  decide

/-- Witness for the amended C2 at the all-success environment. -/
theorem C2_init_phase_order_witness :
    (Viewer.init opsQ okEnv sampleVertices sampleUV "img/invader.png"
          "Sample").1.findIdx isCreateWindowEv <
      (Viewer.init opsQ okEnv sampleVertices sampleUV "img/invader.png"
          "Sample").1.findIdx isBufferDataEv ∧
    (Viewer.init opsQ okEnv sampleVertices sampleUV "img/invader.png"
          "Sample").1.findIdx isBufferDataEv <
      (Viewer.init opsQ okEnv sampleVertices sampleUV "img/invader.png"
          "Sample").1.findIdx isTexImage2DEv ∧
    (Viewer.init opsQ okEnv sampleVertices sampleUV "img/invader.png"
          "Sample").1.findIdx isTexImage2DEv <
      (Viewer.init opsQ okEnv sampleVertices sampleUV "img/invader.png"
          "Sample").1.findIdx isCameraPrintEv ∧
    (Viewer.init opsQ okEnv sampleVertices sampleUV "img/invader.png"
          "Sample").1.findIdx isCameraPrintEv <
      (Viewer.init opsQ okEnv sampleVertices sampleUV "img/invader.png"
          "Sample").1.findIdx isCompileShaderEv ∧
    (Viewer.init opsQ okEnv sampleVertices sampleUV "img/invader.png"
          "Sample").1.findIdx isCompileShaderEv <
      (Viewer.init opsQ okEnv sampleVertices sampleUV "img/invader.png"
          "Sample").1.length :=
  C2_init_phase_order opsQ okEnv sampleVertices sampleUV "img/invader.png"
    "Sample" sampleImage rfl rfl rfl rfl rfl rfl rfl rfl

/-- C7: in a successful construction, `Viewer.__init__` reads the image at
`texture_filename`, flips it vertically (`cv2.flip(image, 0)`, reversing the
row order), and uploads the flipped image as a 2D texture at mipmap level 0
with RGBA internal format, BGR source pixels of unsigned bytes, linear
minification and magnification filters, clamp-to-border wrapping on S and T,
and finally unbinds the texture — as one contiguous call sequence. -/
theorem C7_texture_upload {α : Type} [Field α] (ops : ScalarOps α)
    (env : InitEnv) (mv uv : List α) (tf wt : String) (img : Image)
    (h1 : env.glfwInitOk = true) (h2 : env.createWindowOk = true)
    (h3 : env.vertexSizeAllocated = 4 * mv.length)
    (h4 : env.uvSizeAllocated = 4 * uv.length)
    (h5 : env.image = some img)
    (h6 : env.vertShader.compileOk = true)
    (h7 : env.fragShader.compileOk = true)
    (h8 : env.linkOk = true) :
    ∃ pre suf : List (Ev α),
      (Viewer.init ops env mv uv tf wt).1 =
        pre ++
        [Ev.cvImread tf,
         Ev.cvFlip 0,
         Ev.glGenTextures,
         Ev.glBindTexture .texture2D env.textureId,
         Ev.glPixelStorei .unpackAlignment 1,
         Ev.glTexImage2D .texture2D 0 .rgba img.flipVertical.width
           img.flipVertical.height 0 .bgr .unsignedByte img.flipVertical,
         Ev.glTexParameteri .texture2D .textureMinFilter .linear,
         Ev.glTexParameteri .texture2D .textureMagFilter .linear,
         Ev.glTexParameteri .texture2D .textureWrapS .clampToBorder,
         Ev.glTexParameteri .texture2D .textureWrapT .clampToBorder,
         Ev.glBindTexture .texture2D 0] ++ suf := by
  refine ⟨[Ev.print "Initializing Viewer...", Ev.glfwSetErrorCallback,
    Ev.glfwInit,
    Ev.print "- Creating a window.",
    Ev.glfwWindowHint .contextVersionMajor 3,
    Ev.glfwWindowHint .contextVersionMinor 3,
    Ev.glfwWindowHint .openglForwardCompat 1,
    Ev.glfwCreateWindow 640 480 wt,
    Ev.glfwMakeContextCurrent,
    Ev.glClearColor 0 1 1 1,
    Ev.glfwSetWindowSizeCallback,
    Ev.print "- Preparing buffers.",
    Ev.glGenBuffers,
    Ev.glBindBuffer .arrayBuffer env.vertexBufferId,
    Ev.glBufferData .arrayBuffer mv .dynamicDraw,
    Ev.glGetBufferParameteriv .arrayBuffer .bufferSize,
    Ev.glGenBuffers,
    Ev.glBindBuffer .arrayBuffer env.uvBufferId,
    Ev.glBufferData .arrayBuffer uv .dynamicDraw,
    Ev.glGetBufferParameteriv .arrayBuffer .bufferSize,
    Ev.glGenVertexArrays,
    Ev.glBindVertexArray env.vaoId,
    Ev.glEnableVertexAttribArray 0,
    Ev.glBindBuffer .arrayBuffer env.vertexBufferId,
    Ev.glVertexAttribPointer 0 3 .glFloat,
    Ev.glEnableVertexAttribArray 1,
    Ev.glBindBuffer .arrayBuffer env.uvBufferId,
    Ev.glVertexAttribPointer 1 2 .glFloat,
    Ev.glBindVertexArray 0,
    Ev.glBindBuffer .arrayBuffer 0,
    Ev.print "- Preparing textures."],
    [Ev.print "- Setting camera parameters.",
    Ev.print "- Preparing shaders.",
    Ev.glCreateShader .vertexShader,
    Ev.fileRead "glsl/vertex.glsl",
    Ev.glShaderSource env.vertShaderId,
    Ev.glCompileShader env.vertShaderId,
    Ev.glGetShaderiv env.vertShaderId .compileStatus,
    Ev.glCreateShader .fragmentShader,
    Ev.fileRead "glsl/fragment.glsl",
    Ev.glShaderSource env.fragShaderId,
    Ev.glCompileShader env.fragShaderId,
    Ev.glGetShaderiv env.fragShaderId .compileStatus,
    Ev.glCreateProgram,
    Ev.glAttachShader env.programId env.vertShaderId,
    Ev.glAttachShader env.programId env.fragShaderId,
    Ev.glDeleteShader env.vertShaderId,
    Ev.glDeleteShader env.fragShaderId,
    Ev.glLinkProgram env.programId,
    Ev.glGetProgramiv env.programId .linkStatus,
    Ev.glUseProgram env.programId,
    Ev.glGetUniformLocation env.programId "sampler",
    Ev.glUniform1i "sampler" 0,
    Ev.print "Initialization done. "], ?_⟩
  simp [Viewer.init, Viewer.load_shader, h1, h2, h3, h4, h5, h6, h7, h8]

/-- Witness for C7 at the all-success environment and the sample image. -/
theorem C7_texture_upload_witness :
    ∃ pre suf : List (Ev ℚ),
      (Viewer.init opsQ okEnv sampleVertices sampleUV "img/invader.png"
          "Sample").1 =
        pre ++
        [Ev.cvImread "img/invader.png",
         Ev.cvFlip 0,
         Ev.glGenTextures,
         Ev.glBindTexture .texture2D okEnv.textureId,
         Ev.glPixelStorei .unpackAlignment 1,
         Ev.glTexImage2D .texture2D 0 .rgba sampleImage.flipVertical.width
           sampleImage.flipVertical.height 0 .bgr .unsignedByte
           sampleImage.flipVertical,
         Ev.glTexParameteri .texture2D .textureMinFilter .linear,
         Ev.glTexParameteri .texture2D .textureMagFilter .linear,
         Ev.glTexParameteri .texture2D .textureWrapS .clampToBorder,
         Ev.glTexParameteri .texture2D .textureWrapT .clampToBorder,
         Ev.glBindTexture .texture2D 0] ++ suf :=
  C7_texture_upload opsQ okEnv sampleVertices sampleUV "img/invader.png"
    "Sample" sampleImage rfl rfl rfl rfl rfl rfl rfl rfl
